import Mathlib

/-!
Shallow embedding of the single-election voting state machine from the
`1-low-level-intro-to-polkadot` solution drafts.

Two drafts are embedded:

* namespace `voting_contract` — the ink! contract draft
  (`solution/lib.rs`, `pub mod voting_contract`).  `AccountId` and
  `Timestamp` are modelled as `Nat`.  The caller identity and the clock
  (`env().caller()`, `env().block_timestamp()`, `env().block_number()`)
  are opaque collaborators the contract queries; they are passed to each
  operation as explicit arguments.  The storage map `vote_counts` is
  keyed by the closed two-value enum `VoteOption`, both keys are
  inserted at construction and never removed, so it is represented as a
  total table with one field per option.

* namespace `ff` — the free-function draft (`solution/src/lib.rs`).
  Identities and vote options are `String`s as in the source;
  `vote_counts : HashMap<String, u32>` is an association list with the
  `HashMap` operations the source uses (`contains_key`, `clear`,
  `entry(..).or_insert(0)` followed by `+= 1`).  The system clock read
  (`SystemTime::now()`) is an explicit `now` argument.

Every operation mutates `&mut self`/`&mut VotingState` in Rust and
returns `Result<(), E>`; here each operation returns the pair of the
`Result` and the state as it stands at the return point, threading the
record through the field assignments in source order, so that
"an error return leaves the state unchanged" is a provable property of
the embedding, not an artefact of it.  The free-function
`start_voting` contains `assert!(duration_in_units > 0, ..)`, an
abort rather than a returned error; its result type is wrapped in
`Option`, with `none` for the abort.
-/

namespace voting_contract

/-- `VotingState` enum from `solution/lib.rs`. -/
inductive VotingState where
  | RegistrationOpen
  | VotingActive
  | ResultsFinalized
deriving DecidableEq, Repr

/-- `Error` enum from `solution/lib.rs`. -/
inductive Error where
  | NotAuthorized
  | InvalidStateTransition
  | AlreadyRegistered
  | NotRegistered
  | AlreadyVoted
  | VotingPeriodNotActive
  | InvalidDuration
  | InvalidVoteOption
  | VotingAlreadyEnded
deriving DecidableEq, Repr

/-- `VoteOption` enum from `solution/lib.rs`: the closed option set. -/
inductive VoteOption where
  | OptionA
  | OptionB
deriving DecidableEq, Repr

/-- The `vote_counts : StorageHashMap<VoteOption, u32>` storage map.
Both keys are inserted at construction and never removed, so the map is
a total table over the two options. -/
structure VoteCounts where
  optionA : Nat
  optionB : Nat
deriving DecidableEq, Repr

/-- `vote_counts.get(&option)` (with both keys always present). -/
def VoteCounts.get (vc : VoteCounts) : VoteOption → Nat
  | VoteOption.OptionA => vc.optionA
  | VoteOption.OptionB => vc.optionB

/-- `vote_counts.insert(option, v)`. -/
def VoteCounts.insert (vc : VoteCounts) : VoteOption → Nat → VoteCounts
  | VoteOption.OptionA, v => { vc with optionA := v }
  | VoteOption.OptionB, v => { vc with optionB := v }

/-- Sum of all counts stored in the tally. -/
def VoteCounts.sum (vc : VoteCounts) : Nat :=
  vc.optionA + vc.optionB

/-- The `#[ink(storage)] struct VotingContract`. -/
structure VotingContract where
  current_voting_state : VotingState
  registered_voters : List Nat
  votes_cast : List Nat
  vote_counts : VoteCounts
  voting_start_time : Nat
  voting_end_time : Nat
  admin_id : Nat
  registration_start_block : Nat
deriving DecidableEq, Repr

/-- Constructor `VotingContract::new()`; `caller` is `Self::env().caller()`. -/
def new (caller : Nat) : VotingContract :=
  { current_voting_state := VotingState.RegistrationOpen
    registered_voters := []
    votes_cast := []
    vote_counts := { optionA := 0, optionB := 0 }
    voting_start_time := 0
    voting_end_time := 0
    admin_id := caller
    registration_start_block := 0 }

/-- `is_registered`: `self.registered_voters.iter().any(|v| *v == voter)`. -/
def is_registered (s : VotingContract) (voter : Nat) : Bool :=
  s.registered_voters.any (fun v => v == voter)

/-- `has_voted`: `self.votes_cast.iter().any(|v| *v == voter)`. -/
def has_voted (s : VotingContract) (voter : Nat) : Bool :=
  s.votes_cast.any (fun v => v == voter)

/-- `get_vote_count`: `*self.vote_counts.get(&option).unwrap_or(&0)`. -/
def get_vote_count (s : VotingContract) (option : VoteOption) : Nat :=
  s.vote_counts.get option

/-- `start_registration`: admin check, then clears voter and vote data,
zeroes both counts, re-opens registration and records the block number.
Note the source resets neither `voting_start_time` nor
`voting_end_time`. -/
def start_registration (caller : Nat) (block_number : Nat) (s : VotingContract) :
    Except Error Unit × VotingContract :=
  if caller ≠ s.admin_id then
    (Except.error Error.NotAuthorized, s)
  else
    let s := { s with registered_voters := [] }
    let s := { s with votes_cast := [] }
    let s := { s with vote_counts := (s.vote_counts.insert VoteOption.OptionA 0).insert VoteOption.OptionB 0 }
    let s := { s with current_voting_state := VotingState.RegistrationOpen }
    let s := { s with registration_start_block := block_number }
    (Except.ok (), s)

/-- `register_voter`: phase check, duplicate check, then push. -/
def register_voter (caller : Nat) (s : VotingContract) :
    Except Error Unit × VotingContract :=
  if s.current_voting_state ≠ VotingState.RegistrationOpen then
    (Except.error Error.InvalidStateTransition, s)
  else if is_registered s caller then
    (Except.error Error.AlreadyRegistered, s)
  else
    (Except.ok (), { s with registered_voters := s.registered_voters ++ [caller] })

/-- `start_voting`: admin check, phase check, `duration_in_units <= 0`
check, then sets the window to `(now, now + duration_in_units)` and the
phase to `VotingActive`.  `now` is `self.env().block_timestamp()`. -/
def start_voting (caller : Nat) (now : Nat) (duration_in_units : Nat)
    (s : VotingContract) : Except Error Unit × VotingContract :=
  if caller ≠ s.admin_id then
    (Except.error Error.NotAuthorized, s)
  else if s.current_voting_state ≠ VotingState.RegistrationOpen then
    (Except.error Error.InvalidStateTransition, s)
  else if duration_in_units ≤ 0 then
    (Except.error Error.InvalidDuration, s)
  else
    let s := { s with voting_start_time := now }
    let s := { s with voting_end_time := s.voting_start_time + duration_in_units }
    let s := { s with current_voting_state := VotingState.VotingActive }
    (Except.ok (), s)

/-- `cast_vote`: phase, registration, double-vote and window checks in
source order (the window check is `now < start || now > end`, an
inclusive upper bound), then records the vote and increments the count.
The `match vote_option` arm in the source accepts every value of the
closed enum, so no input reaches an `InvalidVoteOption` error. -/
def cast_vote (caller : Nat) (now : Nat) (vote_option : VoteOption)
    (s : VotingContract) : Except Error Unit × VotingContract :=
  if s.current_voting_state ≠ VotingState.VotingActive then
    (Except.error Error.InvalidStateTransition, s)
  else if ¬ is_registered s caller then
    (Except.error Error.NotRegistered, s)
  else if has_voted s caller then
    (Except.error Error.AlreadyVoted, s)
  else if now < s.voting_start_time ∨ now > s.voting_end_time then
    (Except.error Error.VotingPeriodNotActive, s)
  else
    let s := { s with votes_cast := s.votes_cast ++ [caller] }
    let s := { s with vote_counts := s.vote_counts.insert vote_option (s.vote_counts.get vote_option + 1) }
    (Except.ok (), s)

/-- `end_voting`: admin check, phase check, `now < voting_end_time`
check, then finalizes. -/
def end_voting (caller : Nat) (now : Nat) (s : VotingContract) :
    Except Error Unit × VotingContract :=
  if caller ≠ s.admin_id then
    (Except.error Error.NotAuthorized, s)
  else if s.current_voting_state ≠ VotingState.VotingActive then
    (Except.error Error.InvalidStateTransition, s)
  else if now < s.voting_end_time then
    (Except.error Error.VotingPeriodNotActive, s)
  else
    (Except.ok (), { s with current_voting_state := VotingState.ResultsFinalized })

/-- `reset_application`: admin check, then clears all data, resets the
times and the block number, and re-opens registration. -/
def reset_application (caller : Nat) (s : VotingContract) :
    Except Error Unit × VotingContract :=
  if caller ≠ s.admin_id then
    (Except.error Error.NotAuthorized, s)
  else
    let s := { s with registered_voters := [] }
    let s := { s with votes_cast := [] }
    let s := { s with vote_counts := (s.vote_counts.insert VoteOption.OptionA 0).insert VoteOption.OptionB 0 }
    let s := { s with voting_start_time := 0 }
    let s := { s with voting_end_time := 0 }
    let s := { s with registration_start_block := 0 }
    let s := { s with current_voting_state := VotingState.RegistrationOpen }
    (Except.ok (), s)

/-- One invocation of a mutating contract message, together with the
environment values (caller, block timestamp, block number) the contract
reads during it. -/
inductive Op where
  | startRegistration (caller : Nat) (block_number : Nat)
  | registerVoter (caller : Nat)
  | startVoting (caller : Nat) (now : Nat) (duration_in_units : Nat)
  | castVote (caller : Nat) (now : Nat) (vote_option : VoteOption)
  | endVoting (caller : Nat) (now : Nat)
  | resetApplication (caller : Nat)
deriving DecidableEq, Repr

/-- Run one operation, returning its `Result` and the state after it. -/
def applyOpR (s : VotingContract) : Op → Except Error Unit × VotingContract
  | Op.startRegistration caller bn => start_registration caller bn s
  | Op.registerVoter caller => register_voter caller s
  | Op.startVoting caller now d => start_voting caller now d s
  | Op.castVote caller now o => cast_vote caller now o s
  | Op.endVoting caller now => end_voting caller now s
  | Op.resetApplication caller => reset_application caller s

/-- The state after one operation (discarding the `Result`). -/
def applyOp (s : VotingContract) (op : Op) : VotingContract :=
  (applyOpR s op).2

/-- The state after a sequence of operations. -/
def run (s : VotingContract) : List Op → VotingContract
  | [] => s
  | op :: ops => run (applyOp s op) ops

/-- A state is reachable when some sequence of operations produces it
from a freshly constructed contract. -/
def Reachable (s : VotingContract) : Prop :=
  ∃ (admin : Nat) (ops : List Op), run (new admin) ops = s

end voting_contract

namespace ff

/-- `State` enum from `solution/src/lib.rs`. -/
inductive State where
  | RegistrationClosed
  | RegistrationOpen
  | VotingActive
  | ResultsFinalized
deriving DecidableEq, Repr

/-- `pub struct VotingState` from `solution/src/lib.rs`.  The
`HashMap<String, u32>` of vote counts is an association list. -/
structure VotingState where
  current_voting_state : State
  registered_voters : List String
  votes_cast : List String
  vote_counts : List (String × Nat)
  voting_start_time : Nat
  voting_end_time : Nat
  admin_id : String
deriving DecidableEq, Repr

/-- `vote_counts.contains_key(k)`. -/
def contains_key (m : List (String × Nat)) (k : String) : Bool :=
  m.any (fun p => p.1 == k)

/-- `vote_counts.entry(k).or_insert(0)` followed by `*count += 1`:
increment the value at `k`, inserting `0` first when `k` is absent. -/
def entry_or_insert_add_one (m : List (String × Nat)) (k : String) :
    List (String × Nat) :=
  match m with
  | [] => [(k, 1)]
  | (k', v) :: rest =>
      if k' = k then (k', v + 1) :: rest
      else (k', v) :: entry_or_insert_add_one rest k

/-- `start_registration`: rejects when registration is already open,
then the admin check, then clears voters, votes and the whole tally map
(leaving it empty) and re-opens registration.  The source resets
neither `voting_start_time` nor `voting_end_time`. -/
def start_registration (caller_id : String) (s : VotingState) :
    Except String Unit × VotingState :=
  if s.current_voting_state = State.RegistrationOpen then
    (Except.error "Registration is already open.", s)
  else if caller_id ≠ s.admin_id then
    (Except.error "Only the admin can start registration.", s)
  else
    let s := { s with registered_voters := [] }
    let s := { s with votes_cast := [] }
    let s := { s with vote_counts := [] }
    let s := { s with current_voting_state := State.RegistrationOpen }
    (Except.ok (), s)

/-- `register_voter`: phase check, duplicate check, then push. -/
def register_voter (caller_id : String) (s : VotingState) :
    Except String Unit × VotingState :=
  if s.current_voting_state ≠ State.RegistrationOpen then
    (Except.error "Registration is not open.", s)
  else if s.registered_voters.contains caller_id then
    (Except.error "Voter is already registered.", s)
  else
    (Except.ok (), { s with registered_voters := s.registered_voters ++ [caller_id] })

/-- `start_voting`: admin check, already-active check, then
`assert!(duration_in_units > 0, ..)` — an abort, modelled as `none` —
then sets phase `VotingActive`, `voting_start_time = now` and
`voting_end_time = now + duration_in_units * 60 * 60` (the source
converts the duration from hours to seconds).  `now` is the
`SystemTime::now()` read. -/
def start_voting (caller_id : String) (now : Nat) (duration_in_units : Nat)
    (s : VotingState) : Option (Except String Unit × VotingState) :=
  if caller_id ≠ s.admin_id then
    some (Except.error "Only the admin can start voting.", s)
  else if s.current_voting_state = State.VotingActive then
    some (Except.error "Voting is already active.", s)
  else if ¬ duration_in_units > 0 then
    none
  else
    let s := { s with current_voting_state := State.VotingActive }
    let start_time := now
    let s := { s with voting_start_time := start_time }
    let duration := duration_in_units * 60 * 60
    let s := { s with voting_end_time := start_time + duration }
    some (Except.ok (), s)

/-- `cast_vote`: phase, registration, double-vote, window
(`now < start || now > end`, inclusive upper bound) and option checks
in source order, then records the vote and increments the count. -/
def cast_vote (caller_id : String) (vote_option : String) (now : Nat)
    (s : VotingState) : Except String Unit × VotingState :=
  if s.current_voting_state ≠ State.VotingActive then
    (Except.error "Voting is not active.", s)
  else if ¬ s.registered_voters.contains caller_id then
    (Except.error "Caller is not a registered voter.", s)
  else if s.votes_cast.contains caller_id then
    (Except.error "Caller has already voted.", s)
  else if now < s.voting_start_time ∨ now > s.voting_end_time then
    (Except.error "Voting is not within the active period.", s)
  else if ¬ contains_key s.vote_counts vote_option then
    (Except.error "Invalid vote option.", s)
  else
    let s := { s with votes_cast := s.votes_cast ++ [caller_id] }
    let s := { s with vote_counts := entry_or_insert_add_one s.vote_counts vote_option }
    (Except.ok (), s)

/-- `end_voting`: admin check, phase check, `now < voting_end_time`
check, then finalizes. -/
def end_voting (caller_id : String) (now : Nat) (s : VotingState) :
    Except String Unit × VotingState :=
  if caller_id ≠ s.admin_id then
    (Except.error "Only the admin can end voting.", s)
  else if s.current_voting_state ≠ State.VotingActive then
    (Except.error "Voting is not active.", s)
  else if now < s.voting_end_time then
    (Except.error "Voting period is still active.", s)
  else
    (Except.ok (), { s with current_voting_state := State.ResultsFinalized })

/-- `reset_application`: admin check, then re-opens registration,
clears voters, votes and the whole tally map (leaving it empty) and
zeroes both window times. -/
def reset_application (caller_id : String) (s : VotingState) :
    Except String Unit × VotingState :=
  if caller_id ≠ s.admin_id then
    (Except.error "Only the admin can reset the application.", s)
  else
    let s := { s with current_voting_state := State.RegistrationOpen }
    let s := { s with registered_voters := [] }
    let s := { s with votes_cast := [] }
    let s := { s with vote_counts := [] }
    let s := { s with voting_start_time := 0 }
    let s := { s with voting_end_time := 0 }
    (Except.ok (), s)

/-- One invocation of a free-function operation with the clock value it
reads.  `startVoting` may abort (the `assert!`), so running an
operation yields `Option`. -/
inductive FOp where
  | startRegistration (caller_id : String)
  | registerVoter (caller_id : String)
  | startVoting (caller_id : String) (now : Nat) (duration_in_units : Nat)
  | castVote (caller_id : String) (vote_option : String) (now : Nat)
  | endVoting (caller_id : String) (now : Nat)
  | resetApplication (caller_id : String)
deriving DecidableEq, Repr

/-- Run one free-function operation; `none` is the `assert!` abort. -/
def applyFOp (s : VotingState) : FOp → Option (Except String Unit × VotingState)
  | FOp.startRegistration c => some (start_registration c s)
  | FOp.registerVoter c => some (register_voter c s)
  | FOp.startVoting c now d => start_voting c now d s
  | FOp.castVote c o now => some (cast_vote c o now s)
  | FOp.endVoting c now => some (end_voting c now s)
  | FOp.resetApplication c => some (reset_application c s)

end ff

namespace voting_contract

/-- Data invariant of the contract: the tally counts exactly the
distinct voters recorded in `votes_cast`, and each of them was
registered. -/
def Inv (s : VotingContract) : Prop :=
  s.vote_counts.sum = s.votes_cast.length ∧
  s.votes_cast.Nodup ∧
  ∀ v ∈ s.votes_cast, v ∈ s.registered_voters

/-- A sample run: the admin (account 0) constructs the contract, voter
7 registers, voting opens at time 10 for 5 units, and voter 7 votes at
time 12. -/
def exOps : List Op :=
  [Op.registerVoter 7,
   Op.startVoting 0 10 5,
   Op.castVote 7 12 VoteOption.OptionA]

/-- The state reached by `exOps` from a fresh contract. -/
def exReach : VotingContract :=
  run (new 0) exOps

/-- A reachable contract state in an active voting window `(10, 15)`
with voter 7 registered and no vote cast yet. -/
def exActive : VotingContract :=
  run (new 0) [Op.registerVoter 7, Op.startVoting 0 10 5]

/-- Admin opens voting at time 5 for 10 units and then re-opens
registration: the run whose final state exhibits the stale window. -/
def bugOps : List Op :=
  [Op.startVoting 0 5 10, Op.startRegistration 0 0]

/-- The state reached by `bugOps`: registration is open again but the
voting window fields still hold `(5, 15)`. -/
def bugState : VotingContract :=
  run (new 0) bugOps

end voting_contract

namespace ff

/-- A concrete free-function state with registration open, two options
in the tally and admin `"admin123"`. -/
def exRegOpen : VotingState :=
  { current_voting_state := State.RegistrationOpen
    registered_voters := []
    votes_cast := []
    vote_counts := [("option_A", 0), ("option_B", 0)]
    voting_start_time := 0
    voting_end_time := 0
    admin_id := "admin123" }

/-- `exRegOpen` with results already finalized. -/
def exFinal : VotingState :=
  { exRegOpen with current_voting_state := State.ResultsFinalized }

/-- A concrete free-function state in the middle of an active voting
window with one registered voter. -/
def exFFActive : VotingState :=
  { current_voting_state := State.VotingActive
    registered_voters := ["voter1"]
    votes_cast := []
    vote_counts := [("option_A", 0), ("option_B", 0)]
    voting_start_time := 10
    voting_end_time := 15
    admin_id := "admin123" }

/-- The state the free functions produce from `exFFActive` by
`reset_application` (admin), `register_voter "voter1"` and
`start_voting` (admin, time 10, duration 1): the tally map stays the
empty map the reset left behind. -/
def exEmptyTally : VotingState :=
  { current_voting_state := State.VotingActive
    registered_voters := ["voter1"]
    votes_cast := []
    vote_counts := []
    voting_start_time := 10
    voting_end_time := 3610
    admin_id := "admin123" }

/-- The state returned by `reset_application` called by the admin on
`exFFActive`. -/
def exAfterReset : VotingState :=
  (reset_application "admin123" exFFActive).2

end ff

namespace voting_contract

lemma is_registered_iff (s : VotingContract) (v : Nat) :
    is_registered s v = true ↔ v ∈ s.registered_voters := by
  simp [is_registered, List.any_eq_true]

lemma has_voted_iff (s : VotingContract) (v : Nat) :
    has_voted s v = true ↔ v ∈ s.votes_cast := by
  simp [has_voted, List.any_eq_true]

lemma inv_new (admin : Nat) : Inv (new admin) := by
  refine ⟨rfl, List.nodup_nil, ?_⟩
  intro v hv
  simp [new] at hv

lemma sum_insert_get_add_one (vc : VoteCounts) (o : VoteOption) :
    (vc.insert o (vc.get o + 1)).sum = vc.sum + 1 := by
  cases o <;> simp [VoteCounts.insert, VoteCounts.get, VoteCounts.sum] <;> omega

lemma inv_applyOp (s : VotingContract) (op : Op) (h : Inv s) :
    Inv (applyOp s op) := by
  obtain ⟨h1, h2, h3⟩ := h
  cases op with
  | startRegistration c bn =>
      by_cases hc : c ≠ s.admin_id
      · simpa [applyOp, applyOpR, start_registration, hc] using ⟨h1, h2, h3⟩
      · simp [applyOp, applyOpR, start_registration, hc, Inv, VoteCounts.insert,
          VoteCounts.sum]
  | registerVoter c =>
      simp only [applyOp, applyOpR, register_voter]
      split
      · exact ⟨h1, h2, h3⟩
      · split
        · exact ⟨h1, h2, h3⟩
        · refine ⟨h1, h2, ?_⟩
          intro v hv
          exact List.mem_append_left _ (h3 v hv)
  | startVoting c now d =>
      simp only [applyOp, applyOpR, start_voting]
      split
      · exact ⟨h1, h2, h3⟩
      · split
        · exact ⟨h1, h2, h3⟩
        · split
          · exact ⟨h1, h2, h3⟩
          · exact ⟨h1, h2, h3⟩
  | castVote c now o =>
      simp only [applyOp, applyOpR, cast_vote]
      split
      · exact ⟨h1, h2, h3⟩
      · split
        · exact ⟨h1, h2, h3⟩
        · split
          · exact ⟨h1, h2, h3⟩
          · split
            · exact ⟨h1, h2, h3⟩
            · rename_i hphase hreg hvoted hwin
              rw [Bool.not_eq_true] at hvoted
              have hcmem : c ∉ s.votes_cast := by
                intro hmem
                rw [← has_voted_iff] at hmem
                simp [hmem] at hvoted
              have hcreg : c ∈ s.registered_voters := by
                rw [Bool.not_eq_true, Bool.not_eq_false] at hreg
                exact (is_registered_iff s c).mp hreg
              refine ⟨?_, ?_, ?_⟩
              · show (s.vote_counts.insert o (s.vote_counts.get o + 1)).sum =
                  (s.votes_cast ++ [c]).length
                rw [sum_insert_get_add_one, List.length_append, h1]
                rfl
              · show (s.votes_cast ++ [c]).Nodup
                simp [List.nodup_append, h2, hcmem]
              · intro v hv
                show v ∈ s.registered_voters
                rcases List.mem_append.mp hv with hv | hv
                · exact h3 v hv
                · rw [List.mem_singleton.mp hv]
                  exact hcreg
  | endVoting c now =>
      simp only [applyOp, applyOpR, end_voting]
      split
      · exact ⟨h1, h2, h3⟩
      · split
        · exact ⟨h1, h2, h3⟩
        · split
          · exact ⟨h1, h2, h3⟩
          · exact ⟨h1, h2, h3⟩
  | resetApplication c =>
      by_cases hc : c ≠ s.admin_id
      · simpa [applyOp, applyOpR, reset_application, hc] using ⟨h1, h2, h3⟩
      · simp [applyOp, applyOpR, reset_application, hc, Inv, VoteCounts.insert,
          VoteCounts.sum]

lemma inv_run (s : VotingContract) (ops : List Op) (h : Inv s) :
    Inv (run s ops) := by
  induction ops generalizing s with
  | nil => exact h
  | cons op ops ih => exact ih _ (inv_applyOp s op h)

lemma reachable_inv (s : VotingContract) (h : Reachable s) : Inv s := by
  obtain ⟨admin, ops, rfl⟩ := h
  exact inv_run _ _ (inv_new admin)

end voting_contract

/-- C1: in every reachable state of the election state machine, the sum
of all counts in the tally equals the number of identities in
`votes_cast` (which holds no duplicates, so its length is its number of
identities). -/
theorem C1_tally_sum_eq_votes_cast (s : voting_contract.VotingContract)
    (h : voting_contract.Reachable s) :
    s.vote_counts.sum = s.votes_cast.length ∧ s.votes_cast.Nodup :=
  ⟨(voting_contract.reachable_inv s h).1,
   (voting_contract.reachable_inv s h).2.1⟩

/-- Witness for C1 on the concrete reachable state `exReach`. -/
theorem C1_tally_sum_eq_votes_cast_witness :
    voting_contract.exReach.vote_counts.sum =
      voting_contract.exReach.votes_cast.length ∧
    voting_contract.exReach.votes_cast.Nodup :=
  C1_tally_sum_eq_votes_cast voting_contract.exReach
    ⟨0, voting_contract.exOps, rfl⟩

namespace ff

lemma applyFOp_error_unchanged (fs : VotingState) (fop : FOp) (m : String)
    (r : Except String Unit × VotingState) (hr : applyFOp fs fop = some r)
    (he : r.1 = Except.error m) : r.2 = fs := by
  revert hr
  cases fop <;>
    simp only [applyFOp, start_registration, register_voter, start_voting,
      cast_vote, end_voting, reset_application] <;>
    (repeat' split) <;>
    (intro hr
     first
       | exact Option.noConfusion hr
       | (injection hr with hr2
          subst hr2
          first
            | rfl
            | simp at he))

end ff

namespace voting_contract

lemma applyOpR_error_unchanged (s : VotingContract) (op : Op) (e : Error)
    (he : (applyOpR s op).1 = Except.error e) : (applyOpR s op).2 = s := by
  revert he
  cases op <;>
    simp only [applyOpR, start_registration, register_voter, start_voting,
      cast_vote, end_voting, reset_application] <;>
    (repeat' split) <;>
    (intro he
     first
       | rfl
       | simp at he)

end voting_contract

/-- C2: in every reachable state of the election state machine, every
identity in `votes_cast` is also in `registered_voters`. -/
theorem C2_votes_cast_subset_registered (s : voting_contract.VotingContract)
    (h : voting_contract.Reachable s) :
    ∀ v ∈ s.votes_cast, v ∈ s.registered_voters :=
  (voting_contract.reachable_inv s h).2.2

/-- Witness for C2 on the concrete reachable state `exReach`: voter 7
is in its `votes_cast`, hence in its `registered_voters`. -/
theorem C2_votes_cast_subset_registered_witness :
    7 ∈ voting_contract.exReach.registered_voters :=
  C2_votes_cast_subset_registered voting_contract.exReach
    ⟨0, voting_contract.exOps, rfl⟩ 7 (by decide)

/-- C3 counterexample: in the free-function draft, `start_registration`
checks the phase before the caller, so a non-admin caller in phase
`RegistrationOpen` gets the registration-already-open error rather than
the unauthorized one (the draft's `Unauthorized` is the only-admin
message), even though the state is left unchanged. -/
theorem C3_counterexample :
    "voter1" ≠ ff.exRegOpen.admin_id ∧
    ff.start_registration "voter1" ff.exRegOpen =
      (Except.error "Registration is already open.", ff.exRegOpen) ∧
    "Registration is already open." ≠ "Only the admin can start registration." := by
  refine ⟨by decide, rfl, by decide⟩

/-- C3 amended: for every state and every caller other than the
administrator, each admin-only operation leaves the state unchanged and
returns an error; in the contract draft the error is always
`NotAuthorized`, and in the free-function draft it is the draft's
unauthorized message except for `start_registration` called while the
phase is already `RegistrationOpen`, which reports that registration is
already open. -/
theorem C3_admin_only_rejected (s : voting_contract.VotingContract)
    (fs : ff.VotingState) (c : Nat) (fc : String) (bn now d fnow fd : Nat)
    (hc : c ≠ s.admin_id) (hfc : fc ≠ fs.admin_id) :
    voting_contract.start_registration c bn s =
      (Except.error voting_contract.Error.NotAuthorized, s) ∧
    voting_contract.start_voting c now d s =
      (Except.error voting_contract.Error.NotAuthorized, s) ∧
    voting_contract.end_voting c now s =
      (Except.error voting_contract.Error.NotAuthorized, s) ∧
    voting_contract.reset_application c s =
      (Except.error voting_contract.Error.NotAuthorized, s) ∧
    ff.start_registration fc fs =
      (Except.error
        (if fs.current_voting_state = ff.State.RegistrationOpen then
          "Registration is already open."
        else "Only the admin can start registration."), fs) ∧
    ff.start_voting fc fnow fd fs =
      some (Except.error "Only the admin can start voting.", fs) ∧
    ff.end_voting fc fnow fs =
      (Except.error "Only the admin can end voting.", fs) ∧
    ff.reset_application fc fs =
      (Except.error "Only the admin can reset the application.", fs) := by
  refine ⟨?_, ?_, ?_, ?_, ?_, ?_, ?_, ?_⟩
  · simp [voting_contract.start_registration, hc]
  · simp [voting_contract.start_voting, hc]
  · simp [voting_contract.end_voting, hc]
  · simp [voting_contract.reset_application, hc]
  · by_cases hph : fs.current_voting_state = ff.State.RegistrationOpen
    · simp [ff.start_registration, hph]
    · simp [ff.start_registration, hph, hfc]
  · simp [ff.start_voting, hfc]
  · simp [ff.end_voting, hfc]
  · simp [ff.reset_application, hfc]

/-- Witness for C3 at concrete non-admin callers: account 1 against a
fresh contract (admin 0), and `"voter1"` against `exFFActive`
(admin `"admin123"`). -/
theorem C3_admin_only_rejected_witness :
    voting_contract.start_voting 1 10 5 (voting_contract.new 0) =
      (Except.error voting_contract.Error.NotAuthorized, voting_contract.new 0) ∧
    ff.end_voting "voter1" 20 ff.exFFActive =
      (Except.error "Only the admin can end voting.", ff.exFFActive) := by
  have h := C3_admin_only_rejected (voting_contract.new 0) ff.exFFActive 1 "voter1"
    0 10 5 20 3 (by decide) (by decide)
  exact ⟨h.2.1, h.2.2.2.2.2.2.1⟩

/-- C4: in both drafts, whenever one of the six mutating operations
returns an error, the state it leaves behind is exactly the state
before the call. -/
theorem C4_error_leaves_state_unchanged (s : voting_contract.VotingContract)
    (op : voting_contract.Op) (e : voting_contract.Error)
    (fs : ff.VotingState) (fop : ff.FOp) (m : String) :
    ((voting_contract.applyOpR s op).1 = Except.error e →
      (voting_contract.applyOpR s op).2 = s) ∧
    (∀ r, ff.applyFOp fs fop = some r → r.1 = Except.error m → r.2 = fs) :=
  ⟨fun he => voting_contract.applyOpR_error_unchanged s op e he,
   fun r hr he => ff.applyFOp_error_unchanged fs fop m r hr he⟩

/-- Witness for C4: a rejected `start_voting` by non-admin account 1
leaves the fresh contract unchanged, and a rejected free-function
`end_voting` by `"voter1"` leaves `exFFActive` unchanged. -/
theorem C4_error_leaves_state_unchanged_witness :
    (voting_contract.applyOpR (voting_contract.new 0)
      (voting_contract.Op.startVoting 1 10 5)).2 = voting_contract.new 0 ∧
    (ff.end_voting "voter1" 20 ff.exFFActive).2 = ff.exFFActive := by
  have h := C4_error_leaves_state_unchanged (voting_contract.new 0)
    (voting_contract.Op.startVoting 1 10 5) voting_contract.Error.NotAuthorized
    ff.exFFActive (ff.FOp.endVoting "voter1" 20) "Only the admin can end voting."
  exact ⟨h.1 rfl, h.2 (ff.end_voting "voter1" 20 ff.exFFActive) rfl rfl⟩

/-- C5: the code violates the claim.  `start_registration` in the
contract draft never clears `voting_start_time`/`voting_end_time`, so
after the admin opens voting at time 5 for 10 units and then calls
`start_registration`, the phase is `RegistrationOpen` while the voting
window fields still hold `(5, 15)` instead of the absent-window
sentinel `(0, 0)` — a reachable state the spec declares a defect. -/
theorem C5_registration_open_with_stale_window :
    voting_contract.Reachable voting_contract.bugState ∧
    voting_contract.bugState.current_voting_state =
      voting_contract.VotingState.RegistrationOpen ∧
    voting_contract.bugState.voting_start_time = 5 ∧
    voting_contract.bugState.voting_end_time = 15 :=
  ⟨⟨0, voting_contract.bugOps, rfl⟩, by decide, by decide, by decide⟩

/-- C6 counterexample: the free-function draft multiplies the duration
by `60 * 60` (hours to seconds) inside `start_voting`, so a successful
call with duration 1 at time 1000 sets the window end to 4600, not
1001. -/
theorem C6_counterexample :
    ff.start_voting "admin123" 1000 1 ff.exRegOpen =
      some (Except.ok (), { ff.exRegOpen with
        current_voting_state := ff.State.VotingActive
        voting_start_time := 1000
        voting_end_time := 4600 }) ∧
    (4600 : Nat) ≠ 1000 + 1 :=
  ⟨rfl, by decide⟩

/-- C6 amended: a successful `start_voting` reads the clock value `t`
and sets the phase to `VotingActive`; the contract draft sets the
window to exactly `(t, t + d)` with no unit conversion, while the
free-function draft sets it to `(t, t + d * 60 * 60)`, converting the
duration from hours to seconds. -/
theorem C6_start_voting_sets_window (s : voting_contract.VotingContract)
    (c now d : Nat) (fs : ff.VotingState) (fc : String) (fnow fd : Nat)
    (hc : c = s.admin_id)
    (hph : s.current_voting_state = voting_contract.VotingState.RegistrationOpen)
    (hd : 0 < d)
    (hfc : fc = fs.admin_id)
    (hfph : fs.current_voting_state ≠ ff.State.VotingActive)
    (hfd : 0 < fd) :
    voting_contract.start_voting c now d s =
      (Except.ok (), { s with
        voting_start_time := now
        voting_end_time := now + d
        current_voting_state := voting_contract.VotingState.VotingActive }) ∧
    ff.start_voting fc fnow fd fs =
      some (Except.ok (), { fs with
        current_voting_state := ff.State.VotingActive
        voting_start_time := fnow
        voting_end_time := fnow + fd * 60 * 60 }) := by
  constructor
  · have hd2 : ¬ d ≤ 0 := by omega
    simp [voting_contract.start_voting, hc, hph, hd2]
  · simp [ff.start_voting, hfc, hfph, hfd]

/-- Witness for C6: the admin opens voting on a fresh contract at time
10 for 5 units, and on `exRegOpen` at time 100 for 2 units. -/
theorem C6_start_voting_sets_window_witness :
    voting_contract.start_voting 0 10 5 (voting_contract.new 0) =
      (Except.ok (), { voting_contract.new 0 with
        voting_start_time := 10
        voting_end_time := 10 + 5
        current_voting_state := voting_contract.VotingState.VotingActive }) ∧
    ff.start_voting "admin123" 100 2 ff.exRegOpen =
      some (Except.ok (), { ff.exRegOpen with
        current_voting_state := ff.State.VotingActive
        voting_start_time := 100
        voting_end_time := 100 + 2 * 60 * 60 }) :=
  C6_start_voting_sets_window (voting_contract.new 0) 0 10 5 ff.exRegOpen
    "admin123" 100 2 rfl rfl (by decide) rfl (by decide) (by decide)

/-- C7 counterexample: in the free-function draft a zero duration hits
`assert!` (an abort, modelled `none`), not a returned error, and a call
from `ResultsFinalized` is not rejected at all — it succeeds. -/
theorem C7_counterexample :
    ff.start_voting "admin123" 50 0 ff.exRegOpen = none ∧
    ff.start_voting "admin123" 50 1 ff.exFinal =
      some (Except.ok (), { ff.exFinal with
        current_voting_state := ff.State.VotingActive
        voting_start_time := 50
        voting_end_time := 50 + 1 * 60 * 60 }) :=
  ⟨rfl, rfl⟩

/-- C7 amended: in the contract draft `start_voting` behaves exactly as
the claim states — `NotAuthorized` for a non-admin, then
`InvalidStateTransition` outside `RegistrationOpen`, then
`InvalidDuration` for a zero duration, all returned, and success when
all three preconditions hold; in the free-function draft a zero
duration is an unrecoverable abort and the phase check only rejects
`VotingActive`, so the call succeeds from `ResultsFinalized`. -/
theorem C7_start_voting_error_cases (s : voting_contract.VotingContract)
    (c now d : Nat) (fs : ff.VotingState) (fc : String) (fnow fd : Nat) :
    (c ≠ s.admin_id →
      voting_contract.start_voting c now d s =
        (Except.error voting_contract.Error.NotAuthorized, s)) ∧
    (c = s.admin_id →
      s.current_voting_state ≠ voting_contract.VotingState.RegistrationOpen →
      voting_contract.start_voting c now d s =
        (Except.error voting_contract.Error.InvalidStateTransition, s)) ∧
    (c = s.admin_id →
      s.current_voting_state = voting_contract.VotingState.RegistrationOpen →
      d = 0 →
      voting_contract.start_voting c now d s =
        (Except.error voting_contract.Error.InvalidDuration, s)) ∧
    (c = s.admin_id →
      s.current_voting_state = voting_contract.VotingState.RegistrationOpen →
      0 < d →
      (voting_contract.start_voting c now d s).1 = Except.ok ()) ∧
    (fc = fs.admin_id → fs.current_voting_state ≠ ff.State.VotingActive →
      fd = 0 → ff.start_voting fc fnow fd fs = none) ∧
    (fc = fs.admin_id → fs.current_voting_state = ff.State.ResultsFinalized →
      0 < fd →
      (ff.start_voting fc fnow fd fs).map Prod.fst = some (Except.ok ())) := by
  refine ⟨?_, ?_, ?_, ?_, ?_, ?_⟩
  · intro hc
    simp [voting_contract.start_voting, hc]
  · intro hc hph
    simp [voting_contract.start_voting, hc, hph]
  · intro hc hph hd
    simp [voting_contract.start_voting, hc, hph, hd]
  · intro hc hph hd
    have hd2 : ¬ d ≤ 0 := by omega
    simp [voting_contract.start_voting, hc, hph, hd2]
  · intro hfc hfph hfd
    simp [ff.start_voting, hfc, hfph, hfd]
  · intro hfc hfph hfd
    have hfph2 : fs.current_voting_state ≠ ff.State.VotingActive := by
      rw [hfph]
      intro hcontra
      exact ff.State.noConfusion hcontra
    simp [ff.start_voting, hfc, hfph2, hfd]

/-- Witness for C7: the admin passing duration 0 to the contract draft
gets `InvalidDuration` back, while the same call on the free-function
draft aborts, and a free-function call from `ResultsFinalized`
succeeds. -/
theorem C7_start_voting_error_cases_witness :
    voting_contract.start_voting 0 7 0 (voting_contract.new 0) =
      (Except.error voting_contract.Error.InvalidDuration, voting_contract.new 0) ∧
    ff.start_voting "admin123" 7 0 ff.exRegOpen = none ∧
    (ff.start_voting "admin123" 7 2 ff.exFinal).map Prod.fst =
      some (Except.ok ()) := by
  have h1 := C7_start_voting_error_cases (voting_contract.new 0) 0 7 0
    ff.exRegOpen "admin123" 7 0
  have h2 := C7_start_voting_error_cases (voting_contract.new 0) 0 7 0
    ff.exFinal "admin123" 7 2
  exact ⟨h1.2.2.1 rfl rfl rfl, h1.2.2.2.2.1 rfl (by decide) rfl,
    h2.2.2.2.2.2 rfl rfl (by decide)⟩

/-- C8: in both drafts, for a registered, not-yet-voted caller in phase
`VotingActive` (with a valid option, and a well-formed window with
`start ≤ end`), `cast_vote` at exactly `t = window.end` succeeds — the
upper bound is inclusive — while any `t > window.end` (in particular
`window.end + 1`) or `t < window.start` yields the window-closed error
(`VotingPeriodNotActive` in the contract draft, the not-within-period
message in the free-function draft) and leaves the state unchanged. -/
theorem C8_window_inclusive_upper_bound (s : voting_contract.VotingContract)
    (c : Nat) (o : voting_contract.VoteOption) (t : Nat)
    (fs : ff.VotingState) (fc fo : String) (ft : Nat)
    (hph : s.current_voting_state = voting_contract.VotingState.VotingActive)
    (hreg : voting_contract.is_registered s c = true)
    (hv : voting_contract.has_voted s c = false)
    (hse : s.voting_start_time ≤ s.voting_end_time)
    (hfph : fs.current_voting_state = ff.State.VotingActive)
    (hfreg : fs.registered_voters.contains fc = true)
    (hfv : fs.votes_cast.contains fc = false)
    (hfo : ff.contains_key fs.vote_counts fo = true)
    (hfse : fs.voting_start_time ≤ fs.voting_end_time) :
    (voting_contract.cast_vote c s.voting_end_time o s).1 = Except.ok () ∧
    (s.voting_end_time < t ∨ t < s.voting_start_time →
      voting_contract.cast_vote c t o s =
        (Except.error voting_contract.Error.VotingPeriodNotActive, s)) ∧
    (ff.cast_vote fc fo fs.voting_end_time fs).1 = Except.ok () ∧
    (fs.voting_end_time < ft ∨ ft < fs.voting_start_time →
      ff.cast_vote fc fo ft fs =
        (Except.error "Voting is not within the active period.", fs)) := by
  refine ⟨?_, ?_, ?_, ?_⟩
  · simp only [voting_contract.cast_vote]
    rw [if_neg (by simp [hph]), if_neg (by simp [hreg]), if_neg (by simp [hv]),
      if_neg (by omega)]
  · intro ht
    simp only [voting_contract.cast_vote]
    rw [if_neg (by simp [hph]), if_neg (by simp [hreg]), if_neg (by simp [hv]),
      if_pos (show t < s.voting_start_time ∨ t > s.voting_end_time by omega)]
  · simp only [ff.cast_vote]
    rw [if_neg (by simp [hfph]), if_neg (by simpa using hfreg), if_neg (by simpa using hfv),
      if_neg (by omega), if_neg (by simp [hfo])]
  · intro ht
    simp only [ff.cast_vote]
    rw [if_neg (by simp [hfph]), if_neg (by simpa using hfreg), if_neg (by simpa using hfv),
      if_pos (show ft < fs.voting_start_time ∨ ft > fs.voting_end_time by omega)]

/-- Witness for C8 on `exActive` (window `(10, 15)`, voter 7) and
`exFFActive` (window `(10, 15)`, voter `"voter1"`), voting at the
boundary time 15 and just outside it at 16. -/
theorem C8_window_inclusive_upper_bound_witness :
    (voting_contract.cast_vote 7 15 voting_contract.VoteOption.OptionA
      voting_contract.exActive).1 = Except.ok () ∧
    voting_contract.cast_vote 7 16 voting_contract.VoteOption.OptionA
      voting_contract.exActive =
      (Except.error voting_contract.Error.VotingPeriodNotActive,
        voting_contract.exActive) ∧
    (ff.cast_vote "voter1" "option_A" 15 ff.exFFActive).1 = Except.ok () ∧
    ff.cast_vote "voter1" "option_A" 16 ff.exFFActive =
      (Except.error "Voting is not within the active period.", ff.exFFActive) := by
  have h := C8_window_inclusive_upper_bound voting_contract.exActive 7
    voting_contract.VoteOption.OptionA 16 ff.exFFActive "voter1" "option_A" 16
    (by decide) (by decide) (by decide) (by decide) (by decide) (by decide)
    (by decide) (by decide) (by decide)
  exact ⟨h.1, h.2.1 (Or.inl (by decide)), h.2.2.1, h.2.2.2 (Or.inl (by decide))⟩

/-- C9: in both drafts, the administrator calling `end_voting` in phase
`VotingActive` succeeds whenever `window.end ≤ t` (so also at exactly
`t = window.end`), changing only the phase to `ResultsFinalized` —
tally, `votes_cast` and `registered_voters` are untouched — and fails
with the window-not-expired error (`VotingPeriodNotActive` in the
contract draft, the still-active message in the free-function draft)
with no mutation when `t < window.end`. -/
theorem C9_end_voting_boundary (s : voting_contract.VotingContract)
    (c now : Nat) (fs : ff.VotingState) (fc : String) (fnow : Nat)
    (hc : c = s.admin_id)
    (hph : s.current_voting_state = voting_contract.VotingState.VotingActive)
    (hfc : fc = fs.admin_id)
    (hfph : fs.current_voting_state = ff.State.VotingActive) :
    (s.voting_end_time ≤ now →
      voting_contract.end_voting c now s =
        (Except.ok (), { s with
          current_voting_state := voting_contract.VotingState.ResultsFinalized })) ∧
    (now < s.voting_end_time →
      voting_contract.end_voting c now s =
        (Except.error voting_contract.Error.VotingPeriodNotActive, s)) ∧
    (fs.voting_end_time ≤ fnow →
      ff.end_voting fc fnow fs =
        (Except.ok (), { fs with
          current_voting_state := ff.State.ResultsFinalized })) ∧
    (fnow < fs.voting_end_time →
      ff.end_voting fc fnow fs =
        (Except.error "Voting period is still active.", fs)) := by
  refine ⟨?_, ?_, ?_, ?_⟩
  · intro ht
    have hw : ¬ now < s.voting_end_time := by omega
    simp [voting_contract.end_voting, hc, hph, hw]
  · intro ht
    simp [voting_contract.end_voting, hc, hph, ht]
  · intro ht
    have hw : ¬ fnow < fs.voting_end_time := by omega
    simp [ff.end_voting, hfc, hfph, hw]
  · intro ht
    simp [ff.end_voting, hfc, hfph, ht]

/-- Witness for C9 on `exActive` and `exFFActive` (both windows end at
15): ending at exactly 15 succeeds, ending at 14 is rejected. -/
theorem C9_end_voting_boundary_witness :
    voting_contract.end_voting 0 15 voting_contract.exActive =
      (Except.ok (), { voting_contract.exActive with
        current_voting_state := voting_contract.VotingState.ResultsFinalized }) ∧
    voting_contract.end_voting 0 14 voting_contract.exActive =
      (Except.error voting_contract.Error.VotingPeriodNotActive,
        voting_contract.exActive) ∧
    ff.end_voting "admin123" 15 ff.exFFActive =
      (Except.ok (), { ff.exFFActive with
        current_voting_state := ff.State.ResultsFinalized }) ∧
    ff.end_voting "admin123" 14 ff.exFFActive =
      (Except.error "Voting period is still active.", ff.exFFActive) := by
  have h := C9_end_voting_boundary voting_contract.exActive 0 15 ff.exFFActive
    "admin123" 15 (by decide) (by decide) (by decide) (by decide)
  have h2 := C9_end_voting_boundary voting_contract.exActive 0 14 ff.exFFActive
    "admin123" 14 (by decide) (by decide) (by decide) (by decide)
  exact ⟨h.1 (by decide), h2.2.1 (by decide), h.2.2.1 (by decide),
    h2.2.2.2 (by decide)⟩

/-- C10: in the free-function draft, a successful `reset_application`
or `start_registration` leaves `vote_counts` as the empty map, and from
any state whose `vote_counts` is empty, `cast_vote` never succeeds —
when the caller is registered, has not voted, the phase is
`VotingActive` and the time lies inside the window, it fails with the
invalid-option error — and every core operation preserves the empty
map, so the failure persists until the map is repopulated from outside
the core. -/
theorem C10_empty_tally_rejects_votes (caller vo : String) (now : Nat)
    (s t : ff.VotingState) (fop : ff.FOp)
    (r : Except String Unit × ff.VotingState) :
    (ff.reset_application caller s = (Except.ok (), t) → t.vote_counts = []) ∧
    (ff.start_registration caller s = (Except.ok (), t) → t.vote_counts = []) ∧
    (s.vote_counts = [] → (ff.cast_vote caller vo now s).1 ≠ Except.ok ()) ∧
    (s.vote_counts = [] →
      s.current_voting_state = ff.State.VotingActive →
      s.registered_voters.contains caller = true →
      s.votes_cast.contains caller = false →
      s.voting_start_time ≤ now → now ≤ s.voting_end_time →
      ff.cast_vote caller vo now s = (Except.error "Invalid vote option.", s)) ∧
    (s.vote_counts = [] → ff.applyFOp s fop = some r → r.2.vote_counts = []) := by
  refine ⟨?_, ?_, ?_, ?_, ?_⟩
  · intro h
    simp only [ff.reset_application] at h
    split at h
    · exact Except.noConfusion (congrArg Prod.fst h)
    · rw [Prod.mk.injEq] at h
      rw [← h.2]
  · intro h
    simp only [ff.start_registration] at h
    split at h
    · exact Except.noConfusion (congrArg Prod.fst h)
    · split at h
      · exact Except.noConfusion (congrArg Prod.fst h)
      · rw [Prod.mk.injEq] at h
        rw [← h.2]
  · intro he
    simp only [ff.cast_vote, he]
    (repeat' split) <;> simp_all [ff.contains_key]
  · intro he hph hreg hv h5 h6
    simp only [ff.cast_vote]
    rw [if_neg (by simp [hph]), if_neg (by simpa using hreg),
      if_neg (by simpa using hv), if_neg (by omega),
      if_pos (by simp [ff.contains_key, he])]
  · intro he hr
    revert hr
    cases fop <;>
      simp only [ff.applyFOp, ff.start_registration, ff.register_voter,
        ff.start_voting, ff.cast_vote, ff.end_voting, ff.reset_application] <;>
      (repeat' split) <;>
      (intro hr
       first
         | exact Option.noConfusion hr
         | (injection hr with hr2
            subst hr2
            simp_all [ff.contains_key]))

/-- Witness for C10: the admin resets `exFFActive`, leaving the empty
tally map, and on `exEmptyTally` (`VotingActive`, registered voter
inside the window, empty map) every vote for `"option_A"` is rejected
as an invalid option. -/
theorem C10_empty_tally_rejects_votes_witness :
    ff.exAfterReset.vote_counts = [] ∧
    ff.cast_vote "voter1" "option_A" 12 ff.exEmptyTally =
      (Except.error "Invalid vote option.", ff.exEmptyTally) := by
  have h1 := C10_empty_tally_rejects_votes "admin123" "option_A" 12
    ff.exFFActive ff.exAfterReset (ff.FOp.resetApplication "admin123")
    (Except.ok (), ff.exAfterReset)
  have h2 := C10_empty_tally_rejects_votes "voter1" "option_A" 12
    ff.exEmptyTally ff.exEmptyTally (ff.FOp.resetApplication "admin123")
    (Except.ok (), ff.exEmptyTally)
  exact ⟨h1.1 rfl, h2.2.2.2.1 rfl rfl (by decide) (by decide) (by decide)
    (by decide)⟩
